import Mathlib

/-
Shallow embedding of the Keynote-Sheets-Automation repository
(src/format_value.py, src/powerpoint_bridge.py, src/sheets_client.py,
src/update_presentation.py).  Python floats are modelled as exact
fractions (integer numerator over a positive power-of-ten denominator),
the values the program actually manipulates; machine-level binary float
rounding is irrelevant at the precision exercised by this code.
-/

/-- Exact numeric value standing in for a Python int or float.  Every
value built by this development has a positive denominator (1 or a power
of ten). -/
structure PyNum where
  n : ℤ
  d : ℕ
deriving DecidableEq

/-- Numeric order on fractions by cross-multiplication. -/
def PyNum.lt (a b : PyNum) : Prop := a.n * b.d < b.n * a.d

/-- Numeric order (non-strict) on fractions by cross-multiplication. -/
def PyNum.le (a b : PyNum) : Prop := a.n * b.d ≤ b.n * a.d

instance (a b : PyNum) : Decidable (PyNum.lt a b) := by
  unfold PyNum.lt; infer_instance

instance (a b : PyNum) : Decidable (PyNum.le a b) := by
  unfold PyNum.le; infer_instance

/-- Absolute value of a fraction. -/
def PyNum.abs (a : PyNum) : PyNum := ⟨|a.n|, a.d⟩

/-- Negation of a fraction. -/
def PyNum.neg (a : PyNum) : PyNum := ⟨-a.n, a.d⟩

/-- Multiplication of a fraction by a natural scale factor. -/
def PyNum.scale (a : PyNum) (k : ℕ) : PyNum := ⟨a.n * k, a.d⟩

/-- Embed an integer as a fraction. -/
def PyNum.ofInt (z : ℤ) : PyNum := ⟨z, 1⟩

/-- Negativity test matching Python value < 0 for positive denominators. -/
def PyNum.isNeg (a : PyNum) : Bool := decide (a.n < 0)

/-- Truncation toward zero, the behaviour of Python int(float). -/
def pyTrunc (a : PyNum) : ℤ := Int.tdiv a.n a.d

/-- Round n/d to the nearest integer with ties to even, the rounding used
by Python round() and by fixed-point f-string formatting on exact values
(d is positive at every call site). -/
def roundHalfEvenND (n : ℤ) (d : ℕ) : ℤ :=
  let f := Int.fdiv n d
  let r := n - f * d
  if 2 * r < (d : ℤ) then f
  else if (d : ℤ) < 2 * r then f + 1
  else if f % 2 = 0 then f else f + 1

/-- Character-level model of Python str.strip default whitespace set
(space, tab, newline, carriage return, vertical tab, form feed). -/
def pyIsSpace (c : Char) : Bool :=
  c = ' ' || c = '\t' || c = '\n' || c = '\r' || c = '\x0b' || c = '\x0c'

/-- Model of Python str.strip(): drop leading and trailing whitespace. -/
def pyStrip (s : String) : String :=
  String.mk (((s.toList.dropWhile pyIsSpace).reverse.dropWhile pyIsSpace).reverse)

/-- ASCII lowercasing, the effect of Python str.lower on the format codes
and month names this repository uses. -/
def pyLower (s : String) : String :=
  String.mk (s.toList.map Char.toLower)

/-- Numeric value of a list of decimal digit characters. -/
def digitsVal (l : List Char) : Nat :=
  l.foldl (fun a c => a * 10 + (c.toNat - 48)) 0

/-- Parse a nonempty all-digit character list into a natural number. -/
def parseIntDigits (cs : List Char) : Option Nat :=
  if cs ≠ [] && cs.all Char.isDigit then some (digitsVal cs) else none

/-- Core of Python float(str) on a sign-free body: digits with an optional
single decimal point, at least one digit overall.  Exponent, inf/nan and
underscore forms accepted by CPython are not exercised by this repository
and are omitted. -/
def pyFloatBody (cs : List Char) : Option PyNum :=
  let ip := cs.takeWhile (fun c => c ≠ '.')
  let rest := cs.dropWhile (fun c => c ≠ '.')
  match rest with
  | [] =>
    if ip ≠ [] && ip.all Char.isDigit then some ⟨(digitsVal ip : ℤ), 1⟩ else none
  | _ :: fp =>
    if (ip ++ fp) ≠ [] && ip.all Char.isDigit && fp.all Char.isDigit
        && fp.all (fun c => c ≠ '.') then
      some ⟨(digitsVal ip * 10 ^ fp.length + digitsVal fp : ℤ), 10 ^ fp.length⟩
    else none

/-- Model of Python float(str): strips surrounding whitespace, then an
optional sign followed by a decimal literal. -/
def pyFloat (s : String) : Option PyNum :=
  match (pyStrip s).toList with
  | '-' :: t => (pyFloatBody t).map PyNum.neg
  | '+' :: t => pyFloatBody t
  | t => pyFloatBody t

/-- Insert thousands separators into a reversed digit list. -/
def groupRevAux : List Char → List Char
  | [] => []
  | [a] => [a]
  | [a, b] => [a, b]
  | [a, b, c] => [a, b, c]
  | a :: b :: c :: rest => a :: b :: c :: ',' :: groupRevAux rest

/-- Comma-group the digits of a natural number, e.g. 7500000 to "7,500,000". -/
def groupNat (n : Nat) : String :=
  String.mk ((groupRevAux (toString n).toList.reverse).reverse)

/-- Left-pad a digit string with zeros to the requested width. -/
def leftPadZeros (s : String) (w : Nat) : String :=
  String.mk (List.replicate (w - s.length) '0' ++ s.toList)

/-- Model of Python format(x, ".Nf") and format(x, ",.Nf"): round-half-even
at N decimals, render sign, integer part (optionally comma-grouped) and a
zero-padded fraction part. -/
def fmtFixed (q : PyNum) (decs : Nat) (grouped : Bool) : String :=
  let neg := q.isNeg
  let scaled := (roundHalfEvenND (|q.n| * 10 ^ decs) q.d).toNat
  let ip := scaled / 10 ^ decs
  let fp := scaled % 10 ^ decs
  let ipStr := if grouped then groupNat ip else toString ip
  let fpStr := if decs = 0 then "" else "." ++ leftPadZeros (toString fp) decs
  (if neg then "-" else "") ++ ipStr ++ fpStr

/-- Model of Python format(n, ",") on an integer. -/
def fmtIntGrouped (n : ℤ) : String :=
  (if n < 0 then "-" else "") ++ groupNat n.natAbs

/-- Fraction digits of num/den, up to the given fuel, stopping when the
remainder vanishes.  Used only by the display fallback for numbers. -/
def fracDigitsAux : Nat → Nat → Nat → List Char
  | 0, _, _ => []
  | fuel + 1, num, den =>
    let d := num * 10 / den
    let r := num * 10 % den
    Char.ofNat (48 + d) :: (if r = 0 then [] else fracDigitsAux fuel r den)

/-- Display form of a fraction standing in for Python str(float); exact
for terminating decimals, which are the only values this code produces. -/
def pyNumRepr (q : PyNum) : String :=
  let ip := q.n.natAbs / q.d
  let fr := fracDigitsAux 17 (q.n.natAbs % q.d) q.d
  (if q.isNeg then "-" else "") ++ toString ip ++ "." ++
    (if fr = [] then "0" else String.mk fr)

/-- Raw cell value as seen by format_value: Python None, a str, or a
numeric value (int or float, both modelled as an exact fraction). -/
inductive Value where
  | none : Value
  | str : String → Value
  | num : PyNum → Value
deriving DecidableEq

/-- Model of Python str(value) on the raw-value type; an integral number
renders without a decimal point (Python int), others as a float. -/
def pyStr : Value → String
  | .none => "None"
  | .str s => s
  | .num q => if q.d = 1 then toString q.n else pyNumRepr q

/-- Characters removed everywhere by parse_number before conversion. -/
def cleanChars (cs : List Char) : List Char :=
  cs.filter (fun c => c ≠ ',' && c ≠ '$' && c ≠ '%' && c ≠ ' ')

/-- Accounting-negative rewrite of parse_number: a string wrapped in a
leading and trailing parenthesis pair becomes a leading minus sign. -/
def parenNeg (cs : List Char) : List Char :=
  if cs.head? = some '(' && cs.getLast? = some ')' then
    '-' :: (cs.drop 1).dropLast
  else cs

/-- Embedding of format_value.parse_number (src/format_value.py:17). -/
def parse_number : Value → Option PyNum
  | .none => Option.none
  | .num q => some q
  | .str s => pyFloat (String.mk (parenNeg (cleanChars (pyStrip s).toList)))

/-- Embedding of format_value.format_currency (src/format_value.py:53):
absolute value with separators at 0, 1 or else 2 decimals, minus sign
placed before the symbol for negative inputs. -/
def format_currency (value : PyNum) (decimals : Nat) (symbol : String := "$") : String :=
  let formatted :=
    if decimals = 0 then fmtFixed value.abs 0 true
    else if decimals = 1 then fmtFixed value.abs 1 true
    else fmtFixed value.abs 2 true
  if value.isNeg then "-" ++ symbol ++ formatted
  else symbol ++ formatted

/-- Embedding of format_value.format_percent (src/format_value.py:77). -/
def format_percent (value : PyNum) (decimals : Nat) (multiply : Bool) : String :=
  let v := if multiply then value.scale 100 else value
  if decimals = 0 then fmtFixed v 0 false ++ "%"
  else if decimals = 1 then fmtFixed v 1 false ++ "%"
  else fmtFixed v decimals false ++ "%"

/-- Embedding of format_value.format_integer (src/format_value.py:100). -/
def format_integer (value : PyNum) : String :=
  fmtIntGrouped (roundHalfEvenND value.n value.d)

/-- Embedding of format_value.format_decimal (src/format_value.py:113). -/
def format_decimal (value : PyNum) (decimals : Nat) : String :=
  fmtFixed value decimals true

/-- Split a character list on a separator character; kernel-reducible
replacement for String.splitOn with a one-character separator. -/
def splitOnChar (sep : Char) : List Char → List (List Char)
  | [] => [[]]
  | c :: rest =>
    match splitOnChar sep rest with
    | [] => [[c]]
    | h :: t => if c = sep then [] :: h :: t else (c :: h) :: t

/-- Leap-year test of the proleptic Gregorian calendar used by Python
datetime. -/
def isLeap (y : ℤ) : Bool :=
  y % 4 = 0 && (y % 100 ≠ 0 || y % 400 = 0)

/-- Length of a month in the given year. -/
def daysInMonth (y : ℤ) (m : Nat) : Nat :=
  if m = 2 then (if isLeap y then 29 else 28)
  else if m = 4 || m = 6 || m = 9 || m = 11 then 30
  else 31

/-- Civil date (year, month, day) of the day that is z days after
1970-01-01 in the proleptic Gregorian calendar. -/
def civilFromDays (z : ℤ) : ℤ × ℤ × ℤ :=
  let z := z + 719468
  let era := Int.ediv z 146097
  let doe := Int.emod z 146097
  let yoe := Int.ediv (doe - Int.ediv doe 1460 + Int.ediv doe 36524 - Int.ediv doe 146096) 365
  let y := yoe + era * 400
  let doy := doe - (365 * yoe + Int.ediv yoe 4 - Int.ediv yoe 100)
  let mp := Int.ediv (5 * doy + 2) 153
  let d := doy - Int.ediv (153 * mp + 2) 5 + 1
  let m := if mp < 10 then mp + 3 else mp - 9
  (if m ≤ 2 then y + 1 else y, m, d)

/-- English month names as produced by strftime %B in the C locale. -/
def monthNames : List String :=
  ["January", "February", "March", "April", "May", "June", "July",
   "August", "September", "October", "November", "December"]

/-- Month name for a 1-based month number. -/
def monthName (m : ℤ) : String := monthNames.getD (m - 1).toNat ""

/-- Render a civil date in the "Month D, Year" form built at
src/format_value.py:158-159 (no zero-padded day). -/
def renderMdy (ymd : ℤ × ℤ × ℤ) : String :=
  monthName ymd.2.1 ++ " " ++ toString ymd.2.2 ++ ", " ++ toString ymd.1

/-- Day count of the spreadsheet epoch 1899-12-30 relative to 1970-01-01
(serial 25569 is 1970-01-01). -/
def sheetsEpochToUnix : ℤ := 25569

/-- Proleptic-Gregorian ordinal of 1899-12-30 (day 1 is 0001-01-01), the
quantity Python adds a timedelta to; datetime overflows outside ordinals
1 to 3652059 (years 1 to 9999), which format_date_mdy catches. -/
def sheetsEpochOrdinal : ℤ := 693594

/-- Serial day counts whose date stays inside Python datetime's supported
range; outside it the timedelta addition raises and the code falls back. -/
def pyDateInRange (n : ℤ) : Prop :=
  1 ≤ n + sheetsEpochOrdinal ∧ n + sheetsEpochOrdinal ≤ 3652059

instance (n : ℤ) : Decidable (pyDateInRange n) := by
  unfold pyDateInRange; infer_instance

/-- Validity of a parsed (year, month, day) triple, as enforced by
datetime.strptime. -/
def validYMD (y : ℤ) (m d : Nat) : Bool :=
  1 ≤ y && y ≤ 9999 && 1 ≤ m && m ≤ 12 && 1 ≤ d && d ≤ daysInMonth y m

/-- Year field of strptime %Y: one to four digits. -/
def parseYear (cs : List Char) : Option ℤ :=
  match parseIntDigits cs with
  | some n => if 1 ≤ cs.length && cs.length ≤ 4 then some (n : ℤ) else Option.none
  | Option.none => Option.none

/-- Month or day field of strptime %m / %d: one or two digits. -/
def parseMD (cs : List Char) : Option Nat :=
  match parseIntDigits cs with
  | some n => if 1 ≤ cs.length && cs.length ≤ 2 then some n else Option.none
  | Option.none => Option.none

/-- Model of strptime(s, "%Y-%m-%d"). -/
def parseIsoDate (s : String) : Option (ℤ × Nat × Nat) :=
  match splitOnChar '-' s.toList with
  | [ys, ms, ds] =>
    match parseYear ys, parseMD ms, parseMD ds with
    | some y, some m, some d => if validYMD y m d then some (y, m, d) else Option.none
    | _, _, _ => Option.none
  | _ => Option.none

/-- Model of strptime(s, "%m/%d/%Y"). -/
def parseMdySlash (s : String) : Option (ℤ × Nat × Nat) :=
  match splitOnChar '/' s.toList with
  | [ms, ds, ys] =>
    match parseYear ys, parseMD ms, parseMD ds with
    | some y, some m, some d => if validYMD y m d then some (y, m, d) else Option.none
    | _, _, _ => Option.none
  | _ => Option.none

/-- Model of strptime(s, "%d/%m/%Y"). -/
def parseDmySlash (s : String) : Option (ℤ × Nat × Nat) :=
  match splitOnChar '/' s.toList with
  | [ds, ms, ys] =>
    match parseYear ys, parseMD ms, parseMD ds with
    | some y, some m, some d => if validYMD y m d then some (y, m, d) else Option.none
    | _, _, _ => Option.none
  | _ => Option.none

/-- Model of strptime(s, "%B %d, %Y"): full month name (case-insensitive),
day, a comma-space, and the year. -/
def parseLongDate (s : String) : Option (ℤ × Nat × Nat) :=
  match splitOnChar ' ' s.toList with
  | [mon, dcomma, ys] =>
    match (monthNames.map pyLower).indexOf? (pyLower (String.mk mon)) with
    | some mIdx =>
      if dcomma.getLast? = some ',' then
        match parseMD dcomma.dropLast, parseYear ys with
        | some d, some y =>
          if validYMD y (mIdx + 1) d then some (y, mIdx + 1, d) else Option.none
        | _, _ => Option.none
      else Option.none
    | Option.none => Option.none
  | _ => Option.none

/-- First-match-wins trial of the string date formats listed at
src/format_value.py:149 for format_date_mdy. -/
def tryDateFormatsMdy (s : String) : Option (ℤ × Nat × Nat) :=
  match parseIsoDate (pyStrip s) with
  | some r => some r
  | Option.none =>
    match parseMdySlash (pyStrip s) with
    | some r => some r
    | Option.none =>
      match parseDmySlash (pyStrip s) with
      | some r => some r
      | Option.none => parseLongDate (pyStrip s)

/-- String date formats tried by format_date_short
(src/format_value.py:185), which omits the long form. -/
def tryDateFormatsShort (s : String) : Option (ℤ × Nat × Nat) :=
  match parseIsoDate (pyStrip s) with
  | some r => some r
  | Option.none =>
    match parseMdySlash (pyStrip s) with
    | some r => some r
    | Option.none => parseDmySlash (pyStrip s)

/-- Embedding of format_value.format_date_mdy (src/format_value.py:127).
Numeric values are truncated to a day count added to the 1899-12-30
epoch; strings are tried against the format list; anything unparsed
falls back to its string form.  The datetime branch of the source cannot
arise here because spreadsheet raw values are never datetime objects. -/
def format_date_mdy (value : Value) : String :=
  match value with
  | .num q =>
    let n := pyTrunc q
    if pyDateInRange n then renderMdy (civilFromDays (n - sheetsEpochToUnix))
    else pyStr value
  | .str s =>
    match tryDateFormatsMdy s with
    | some (y, m, d) => monthName m ++ " " ++ toString d ++ ", " ++ toString y
    | Option.none => s
  | .none => pyStr value

/-- Embedding of format_value.format_date_short (src/format_value.py:165). -/
def format_date_short (value : Value) : String :=
  match value with
  | .num q =>
    let n := pyTrunc q
    if pyDateInRange n then
      let ymd := civilFromDays (n - sheetsEpochToUnix)
      toString ymd.2.1 ++ "/" ++ toString ymd.1
    else pyStr value
  | .str s =>
    match tryDateFormatsShort s with
    | some (y, m, _) => toString m ++ "/" ++ toString y
    | Option.none => s
  | .none => pyStr value

/-- Word forms of 0 to 20 from src/format_value.py:208. -/
def numberWords : List String :=
  ["Zero", "One", "Two", "Three", "Four", "Five", "Six", "Seven", "Eight",
   "Nine", "Ten", "Eleven", "Twelve", "Thirteen", "Fourteen", "Fifteen",
   "Sixteen", "Seventeen", "Eighteen", "Nineteen", "Twenty"]

/-- Embedding of format_value.format_text_number (src/format_value.py:198). -/
def format_text_number (value : Value) : String :=
  match parse_number value with
  | some q =>
    let i := roundHalfEvenND q.n q.d
    if 0 ≤ i ∧ i ≤ 20 then numberWords.getD i.toNat (pyStr value)
    else pyStr value
  | Option.none => pyStr value

/-- Emptiness test from src/format_value.py:242: None, or a string that
strips to nothing. -/
def isEmptyRaw : Value → Bool
  | .none => true
  | .str s => pyStrip s == ""
  | .num _ => false

/-- Multiply-by-100 heuristic of the percent branches
(src/format_value.py:274): abs(num) <= 1 and abs(num) > 0. -/
def percentMultiply (v : PyNum) : Bool :=
  decide (PyNum.le v.abs (PyNum.ofInt 1)) && decide (PyNum.lt (PyNum.ofInt 0) v.abs)

/-- Format-code dispatch, the if/elif chain of src/format_value.py:249-326.
The enclosing try/except cannot fire in this model because every embedded
operation is total. -/
def formatDispatch (raw : Value) (f : String) : String :=
  if f = "currency0" then
    match parse_number raw with
    | some n => format_currency n 0
    | Option.none => pyStr raw
  else if f = "currency1" then
    match parse_number raw with
    | some n => format_currency n 1
    | Option.none => pyStr raw
  else if f = "currency2" then
    match parse_number raw with
    | some n => format_currency n 2
    | Option.none => pyStr raw
  else if f = "percent0" then
    match parse_number raw with
    | some n => format_percent n 0 (percentMultiply n)
    | Option.none => pyStr raw
  else if f = "percent1" then
    match parse_number raw with
    | some n => format_percent n 1 (percentMultiply n)
    | Option.none => pyStr raw
  else if f = "percent2" then
    match parse_number raw with
    | some n => format_percent n 2 (percentMultiply n)
    | Option.none => pyStr raw
  else if f = "integer" then
    match parse_number raw with
    | some n => format_integer n
    | Option.none => pyStr raw
  else if f = "decimal1" then
    match parse_number raw with
    | some n => format_decimal n 1
    | Option.none => pyStr raw
  else if f = "decimal2" then
    match parse_number raw with
    | some n => format_decimal n 2
    | Option.none => pyStr raw
  else if f = "date_mdy" then format_date_mdy raw
  else if f = "date_short" then format_date_short raw
  else if f = "text_number" then format_text_number raw
  else pyStr raw

/-- Embedding of format_value.format_value (src/format_value.py:225).
Parameter names pfx and sfx stand for the source's prefix and suffix. -/
def format_value (raw_value : Value) (fmt : String) (pfx sfx : String)
    (empty_value : String := "") : String :=
  if isEmptyRaw raw_value then empty_value
  else
    let f := if fmt = "" then "text" else pyStrip (pyLower fmt)
    let result := formatDispatch raw_value f
    pfx ++ result ++ sfx

/-- Font attributes of a text run in the document model; None on a field
means the attribute is inherited/unset, exactly python-pptx's None.  The
colorRgb field is some c when the run carries an explicit RGB color c
(an int-valued RGBColor); otherwise reading .rgb raises and the source's
capture leaves its snapshot entry None. -/
structure Font where
  name : Option String
  size : Option Nat
  bold : Option Bool
  italic : Option Bool
  colorRgb : Option Nat
deriving DecidableEq

/-- Font with every attribute unset, the state of a freshly added run. -/
def emptyFont : Font := ⟨Option.none, Option.none, Option.none, Option.none, Option.none⟩

/-- One styled text run. -/
structure Run where
  text : String
  font : Font
deriving DecidableEq

/-- A paragraph is its ordered list of runs. -/
abbrev Paragraph : Type := List Run

/-- A text frame (or table-cell text container) is its ordered paragraphs. -/
abbrev TextFrame : Type := List Paragraph

/-- Python truthiness filter applied by the style re-application sites:
an attribute guarded by a plain if is dropped when it is None or falsy
(empty font name; zero size; RGBColor 0, since RGBColor subclasses int). -/
def filtName : Option String → Option String
  | some s => if s = "" then Option.none else some s
  | Option.none => Option.none

/-- Truthiness filter for the captured font size (see filtName). -/
def filtSize : Option Nat → Option Nat
  | some k => if k = 0 then Option.none else some k
  | Option.none => Option.none

/-- Truthiness filter for the captured RGB color (see filtName); this also
models the capture condition at src/powerpoint_bridge.py:108, which skips
a falsy (zero/absent) rgb value. -/
def filtColor : Option Nat → Option Nat
  | some c => if c = 0 then Option.none else some c
  | Option.none => Option.none

/-- Net effect of src/powerpoint_bridge.py:101-124 on the first paragraph:
capture the first run's attributes, clear the paragraph, add one run with
the new text, and set each captured attribute back when truthy (bold and
italic use an is-not-None test and transfer exactly). -/
def replaceParagraphShape (r : Run) (t : String) : Paragraph :=
  [{ text := t,
     font := { name := filtName r.font.name,
               size := filtSize r.font.size,
               bold := r.font.bold,
               italic := r.font.italic,
               colorRgb := filtColor r.font.colorRgb } }]

/-- Net effect of src/powerpoint_bridge.py:147-168 on a table cell's first
paragraph: identical to the shape path except that the source never
captures or re-applies italic, so the replacement run's italic is unset. -/
def replaceParagraphCell (r : Run) (t : String) : Paragraph :=
  [{ text := t,
     font := { name := filtName r.font.name,
               size := filtSize r.font.size,
               bold := r.font.bold,
               italic := Option.none,
               colorRgb := filtColor r.font.colorRgb } }]

/-- Text-frame mutation of update_shape_text
(src/powerpoint_bridge.py:98-128): a first paragraph with a run gets the
styled single-run replacement; a run-less first paragraph gets its text
set (one plain run); a frame with no paragraphs gets frame-level text
assignment (one paragraph, one plain run).  Paragraphs after the first
are untouched in the first two cases. -/
def updateShapeTF (tf : TextFrame) (t : String) : TextFrame :=
  match tf with
  | [] => [[⟨t, emptyFont⟩]]
  | p :: ps =>
    match p with
    | [] => [(⟨t, emptyFont⟩ : Run)] :: ps
    | r :: _ => replaceParagraphShape r t :: ps

/-- Text-frame mutation of update_table_cell on the target cell
(src/powerpoint_bridge.py:145-172), the cell-style variant of
updateShapeTF. -/
def updateCellTF (tf : TextFrame) (t : String) : TextFrame :=
  match tf with
  | [] => [[⟨t, emptyFont⟩]]
  | p :: ps =>
    match p with
    | [] => [(⟨t, emptyFont⟩ : Run)] :: ps
    | r :: _ => replaceParagraphCell r t :: ps

/-- A table: grid of cell text containers plus its column count (the
source checks len(table.columns) for bounds). -/
structure Table where
  cells : List (List TextFrame)
  ncols : Nat
deriving DecidableEq

/-- A named shape, optionally carrying a text frame and/or a table. -/
structure Shape where
  name : String
  textFrame : Option TextFrame
  table : Option Table
deriving DecidableEq

instance : Inhabited Shape := ⟨⟨"", Option.none, Option.none⟩⟩

/-- A slide is its ordered shape list. -/
abbrev Slide : Type := List Shape

/-- A presentation is its ordered slide list. -/
abbrev Document : Type := List Slide

/-- Embedding of PowerPointBridge._get_slide (src/powerpoint_bridge.py:54):
1-based index, None when out of range. -/
def getSlide (doc : Document) (idx : ℤ) : Option Slide :=
  if idx < 1 ∨ (doc : List Slide).length < idx then Option.none
  else some ((doc : List Slide).getD (idx - 1).toNat [])

/-- Write back a slide at a 1-based index (the in-place mutation of the
Python object model, made explicit). -/
def setSlide (doc : Document) (idx : ℤ) (sl : Slide) : Document :=
  (doc : List Slide).set (idx - 1).toNat sl

/-- First index at which a predicate holds; linear scan, first match wins,
as in _find_shape_by_name / _find_table_by_name.  The source's per-session
cache only memoises this lookup and never changes its result, since shape
names are not mutated during a run. -/
def findIdxP (p : Shape → Bool) : List Shape → Option Nat
  | [] => Option.none
  | x :: xs => if p x then some 0 else (findIdxP p xs).map (fun i => i + 1)

/-- Shape-lookup predicate of _find_shape_by_name
(src/powerpoint_bridge.py:62-74): exact name match. -/
def shapePred (nm : String) (sh : Shape) : Bool := sh.name == nm

/-- Table-lookup predicate of _find_table_by_name
(src/powerpoint_bridge.py:76-88): exact name match and has_table. -/
def tablePred (nm : String) (sh : Shape) : Bool := sh.name == nm && sh.table.isSome

/-- Embedding of PowerPointBridge.update_shape_text
(src/powerpoint_bridge.py:90-132): returns the (success, message) pair of
the source together with the resulting document state.  The source's
try/except boundary is vacuous here because the model is total. -/
def update_shape_text (doc : Document) (slide_index : ℤ) (shape_name : String)
    (new_text : String) : (Bool × String) × Document :=
  match getSlide doc slide_index with
  | Option.none =>
    ((false, "Shape \x27" ++ shape_name ++ "\x27 not found on slide " ++ toString slide_index), doc)
  | some sl =>
    match findIdxP (shapePred shape_name) sl with
    | Option.none =>
      ((false, "Shape \x27" ++ shape_name ++ "\x27 not found on slide " ++ toString slide_index), doc)
    | some i =>
      let sh := sl.getD i default
      match sh.textFrame with
      | Option.none =>
        ((false, "Shape \x27" ++ shape_name ++ "\x27 does not contain text"), doc)
      | some tf =>
        ((true, "Updated shape \x27" ++ shape_name ++ "\x27 on slide " ++ toString slide_index),
         setSlide doc slide_index (sl.set i { sh with textFrame := some (updateShapeTF tf new_text) }))

/-- Embedding of PowerPointBridge.update_table_cell
(src/powerpoint_bridge.py:134-175): resolve the table, convert the 1-based
row and col, reject out-of-range indices with a range message before any
mutation, otherwise apply the cell-style replacement to that cell only. -/
def update_table_cell (doc : Document) (slide_index : ℤ) (table_name : String)
    (row col : ℤ) (new_text : String) : (Bool × String) × Document :=
  match getSlide doc slide_index with
  | Option.none =>
    ((false, "Table \x27" ++ table_name ++ "\x27 not found on slide " ++ toString slide_index), doc)
  | some sl =>
    match findIdxP (tablePred table_name) sl with
    | Option.none =>
      ((false, "Table \x27" ++ table_name ++ "\x27 not found on slide " ++ toString slide_index), doc)
    | some i =>
      let sh := sl.getD i default
      match sh.table with
      | Option.none =>
        ((false, "Table \x27" ++ table_name ++ "\x27 not found on slide " ++ toString slide_index), doc)
      | some tb =>
        if row - 1 < 0 ∨ (tb.cells.length : ℤ) ≤ row - 1 then
          ((false, "Row " ++ toString row ++ " out of range"), doc)
        else if col - 1 < 0 ∨ (tb.ncols : ℤ) ≤ col - 1 then
          ((false, "Column " ++ toString col ++ " out of range"), doc)
        else
          let r := (row - 1).toNat
          let c := (col - 1).toNat
          let oldRow := tb.cells.getD r []
          let cellTF := oldRow.getD c []
          let tb2 := { tb with cells := tb.cells.set r (oldRow.set c (updateCellTF cellTF new_text)) }
          ((true, "Updated cell (" ++ toString row ++ "," ++ toString col ++ ") in \x27" ++ table_name ++ "\x27"),
           setSlide doc slide_index (sl.set i { sh with table := some tb2 }))

/-- One raw spreadsheet cell as delivered by the Sheets API: absent/None,
a string, or a number. -/
inductive SheetCell where
  | none : SheetCell
  | str : String → SheetCell
  | num : PyNum → SheetCell
deriving DecidableEq

/-- Python str() of a raw sheet cell. -/
def sheetCellStr : SheetCell → String
  | .none => "None"
  | .str s => s
  | .num q => if q.d = 1 then toString q.n else pyNumRepr q

/-- Embedding of the get_cell helper of MappingRow.from_row
(src/sheets_client.py:41-45): the cell at the index, or the default when
the index is out of range or the cell is None. -/
def get_cell (r : List SheetCell) (index : Nat) (dflt : SheetCell) : SheetCell :=
  match r[index]? with
  | some SheetCell.none => dflt
  | some v => v
  | Option.none => dflt

/-- Embedding of the get_int helper of MappingRow.from_row
(src/sheets_client.py:47-54): int(float(val)) with the default on a
missing, None, empty or unparseable cell. -/
def get_int (r : List SheetCell) (index : Nat) (dflt : Option ℤ) : Option ℤ :=
  match r[index]? with
  | Option.none => dflt
  | some v =>
    match v with
    | .none => dflt
    | .str s =>
      if s = "" then dflt
      else
        match pyFloat s with
        | some q => some (pyTrunc q)
        | Option.none => dflt
    | .num q => some (pyTrunc q)

/-- Embedding of the MappingRow dataclass (src/sheets_client.py:23-36);
fields pfx and sfx stand for the source's prefix and suffix columns. -/
structure MappingRow where
  id : String
  sheet_range : String
  slide_index : ℤ
  target_type : String
  object_name : String
  row : Option ℤ
  col : Option ℤ
  format : String
  pfx : String
  sfx : String
  notes : String
deriving DecidableEq

/-- Embedding of MappingRow.from_row (src/sheets_client.py:38-68).  The
slide_index expression get_int(2, 1) or 1 maps a parsed 0 to 1 through
Python integer truthiness, while any nonzero parse (negative included)
passes through. -/
def MappingRow.from_row (r : List SheetCell) : MappingRow :=
  let si := (get_int r 2 (some 1)).getD 1
  { id := sheetCellStr (get_cell r 0 (.str ""))
    sheet_range := sheetCellStr (get_cell r 1 (.str ""))
    slide_index := if si = 0 then 1 else si
    target_type := pyLower (sheetCellStr (get_cell r 3 (.str "shape")))
    object_name := sheetCellStr (get_cell r 4 (.str ""))
    row := get_int r 5 Option.none
    col := get_int r 6 Option.none
    format := sheetCellStr (get_cell r 7 (.str "text"))
    pfx := sheetCellStr (get_cell r 8 (.str ""))
    sfx := sheetCellStr (get_cell r 9 (.str ""))
    notes := sheetCellStr (get_cell r 10 (.str "")) }

/-- Embedding of update_presentation.process_mapping
(src/update_presentation.py:47-89): format the value, short-circuit in
dry-run mode, otherwise dispatch on target_type to the bridge mutators,
returning the (success, message) pair and the resulting document. -/
def process_mapping (doc : Document) (mapping : MappingRow) (value : Value)
    (empty_value : String) (dry_run : Bool) : (Bool × String) × Document :=
  let formatted_text :=
    format_value value mapping.format mapping.pfx mapping.sfx empty_value
  if dry_run then ((true, "Dry run - no changes made"), doc)
  else if mapping.target_type = "shape" then
    update_shape_text doc mapping.slide_index mapping.object_name formatted_text
  else if mapping.target_type = "table_cell" then
    match mapping.row, mapping.col with
    | some r, some c =>
      update_table_cell doc mapping.slide_index mapping.object_name r c formatted_text
    | _, _ =>
      ((false, "Table cell mapping \x27" ++ mapping.id ++ "\x27 is missing row or col index"), doc)
  else
    ((false, "Unknown target type \x27" ++ mapping.target_type ++ "\x27 for mapping \x27" ++ mapping.id ++ "\x27"), doc)

/-- Appending the empty string on the right is the identity. -/
theorem strAppendEmpty (s : String) : s ++ "" = s := by
  cases s with
  | mk data => show String.mk (data ++ []) = String.mk data; rw [List.append_nil]

/-- Appending the empty string on the left is the identity. -/
theorem strEmptyAppend (s : String) : "" ++ s = s := rfl

/-- Setting at an index at or past the length leaves a list unchanged. -/
theorem listSetPast (l : List α) (i : Nat) (a : α) (h : l.length ≤ i) :
    l.set i a = l := by
  induction l generalizing i with
  | nil => rfl
  | cons x xs ih =>
    cases i with
    | zero => simp at h
    | succ j =>
      simp only [List.set]
      rw [ih j (by simpa using h)]

/-- Reading back a just-set element within bounds. -/
theorem listGetDSetSelf (l : List α) (i : Nat) (a d : α) (h : i < l.length) :
    (l.set i a).getD i d = a := by
  induction l generalizing i with
  | nil => simp at h
  | cons x xs ih =>
    cases i with
    | zero => rfl
    | succ j => exact ih j (by simpa using h)

/-- Reading past the end of a list yields the default. -/
theorem listGetDPast (l : List α) (i : Nat) (d : α) (h : l.length ≤ i) :
    l.getD i d = d := by
  induction l generalizing i with
  | nil => rfl
  | cons x xs ih =>
    cases i with
    | zero => simp at h
    | succ j => exact ih j (by simpa using h)

/-- Overwriting the same position twice keeps only the second write. -/
theorem listSetSet (l : List α) (i : Nat) (a b : α) :
    (l.set i a).set i b = l.set i b := by
  induction l generalizing i with
  | nil => rfl
  | cons x xs ih =>
    cases i with
    | zero => rfl
    | succ j => simp only [List.set]; rw [ih]

/-- A found index is within the list. -/
theorem findIdxPLtLength (p : Shape → Bool) (l : List Shape) (i : Nat)
    (h : findIdxP p l = some i) : i < l.length := by
  induction l generalizing i with
  | nil => simp [findIdxP] at h
  | cons x xs ih =>
    by_cases hp : p x
    · simp [findIdxP, hp] at h
      simp only [List.length_cons]
      omega
    · simp [findIdxP, hp] at h
      obtain ⟨j, hj, rfl⟩ := h
      have := ih j hj
      simp only [List.length_cons]
      omega

/-- The element at a found index satisfies the predicate. -/
theorem findIdxPGetD (p : Shape → Bool) (l : List Shape) (i : Nat) (d : Shape)
    (h : findIdxP p l = some i) : p (l.getD i d) = true := by
  induction l generalizing i with
  | nil => simp [findIdxP] at h
  | cons x xs ih =>
    by_cases hp : p x
    · simp [findIdxP, hp] at h
      subst h
      simpa using hp
    · simp [findIdxP, hp] at h
      obtain ⟨j, hj, rfl⟩ := h
      simpa using ih j hj

/-- Replacing the found element by one still satisfying the predicate
does not move the first match. -/
theorem findIdxPSet (p : Shape → Bool) (l : List Shape) (i : Nat) (a : Shape)
    (h : findIdxP p l = some i) (ha : p a = true) :
    findIdxP p (l.set i a) = some i := by
  induction l generalizing i with
  | nil => simp [findIdxP] at h
  | cons x xs ih =>
    by_cases hp : p x
    · simp [findIdxP, hp] at h
      subst h
      simp [List.set, findIdxP, ha]
    · simp [findIdxP, hp] at h
      obtain ⟨j, hj, rfl⟩ := h
      simp [List.set, findIdxP, hp, ih j hj]

/-- The truthiness filter for names is idempotent. -/
theorem filtNameIdem (o : Option String) : filtName (filtName o) = filtName o := by
  cases o with
  | none => rfl
  | some s =>
    by_cases h : s = ""
    · simp [filtName, h]
    · simp [filtName, h]

/-- The truthiness filter for sizes is idempotent. -/
theorem filtSizeIdem (o : Option Nat) : filtSize (filtSize o) = filtSize o := by
  cases o with
  | none => rfl
  | some k =>
    by_cases h : k = 0
    · simp [filtSize, h]
    · simp [filtSize, h]

/-- The truthiness filter for colors is idempotent. -/
theorem filtColorIdem (o : Option Nat) : filtColor (filtColor o) = filtColor o := by
  cases o with
  | none => rfl
  | some c =>
    by_cases h : c = 0
    · simp [filtColor, h]
    · simp [filtColor, h]

/-- The shape text-frame mutation is idempotent for a fixed text. -/
theorem updateShapeTFIdem (tf : TextFrame) (t : String) :
    updateShapeTF (updateShapeTF tf t) t = updateShapeTF tf t := by
  match tf with
  | [] =>
    simp [updateShapeTF, replaceParagraphShape, emptyFont, filtName, filtSize, filtColor]
  | [] :: ps =>
    simp [updateShapeTF, replaceParagraphShape, emptyFont, filtName, filtSize, filtColor]
  | (r :: rs) :: ps =>
    simp only [updateShapeTF, replaceParagraphShape]
    rw [filtNameIdem, filtSizeIdem, filtColorIdem]

/-- The table-cell text-frame mutation is idempotent for a fixed text. -/
theorem updateCellTFIdem (tf : TextFrame) (t : String) :
    updateCellTF (updateCellTF tf t) t = updateCellTF tf t := by
  match tf with
  | [] =>
    simp [updateCellTF, replaceParagraphCell, emptyFont, filtName, filtSize, filtColor]
  | [] :: ps =>
    simp [updateCellTF, replaceParagraphCell, emptyFont, filtName, filtSize, filtColor]
  | (r :: rs) :: ps =>
    simp only [updateCellTF, replaceParagraphCell]
    rw [filtNameIdem, filtSizeIdem, filtColorIdem]

/-- Writing a slide back does not change the slide count. -/
theorem setSlideLength (doc : Document) (k : ℤ) (sl : Slide) :
    (setSlide doc k sl).length = doc.length := by
  simp [setSlide]

/-- Reading a slide just written at a valid index returns it. -/
theorem getSlideSetSlide (doc : Document) (k : ℤ) (sl sl0 : Slide)
    (h : getSlide doc k = some sl0) :
    getSlide (setSlide doc k sl) k = some sl := by
  simp only [getSlide] at h ⊢
  by_cases hb : k < 1 ∨ (doc : List Slide).length < k
  · simp [hb] at h
  · push_neg at hb
    have hlen : ((setSlide doc k sl : List Slide)).length = (doc : List Slide).length :=
      setSlideLength doc k sl
    have hb2 : ¬(k < 1 ∨ ((setSlide doc k sl : List Slide)).length < k) := by
      rw [hlen]; push_neg; exact hb
    rw [if_neg hb2]
    have hk : ((k - 1).toNat) < (doc : List Slide).length := by omega
    rw [setSlide] at *
    rw [listGetDSetSelf _ _ _ _ hk]

/-- Writing the same slide slot twice keeps only the second write. -/
theorem setSlideSetSlide (doc : Document) (k : ℤ) (a b : Slide) :
    setSlide (setSlide doc k a) k b = setSlide doc k b := by
  simp only [setSlide]
  exact listSetSet _ _ _ _

/-- The whole update_shape_text document transformation is idempotent for
fixed arguments: failures leave the document alone, and a successful
second pass recaptures exactly the style it just applied. -/
theorem updateShapeTextIdem (doc : Document) (k : ℤ) (nm t : String) :
    (update_shape_text ((update_shape_text doc k nm t).2) k nm t).2 =
      (update_shape_text doc k nm t).2 := by
  cases hslide : getSlide doc k with
  | none => simp only [update_shape_text, hslide]
  | some sl =>
    cases hfind : findIdxP (shapePred nm) sl with
    | none => simp only [update_shape_text, hslide, hfind]
    | some i =>
      cases htf : (sl.getD i default).textFrame with
      | none => simp only [update_shape_text, hslide, hfind, htf]
      | some tf =>
        have hi : i < sl.length := findIdxPLtLength _ _ _ hfind
        have hp : shapePred nm (sl.getD i default) = true := findIdxPGetD _ _ _ _ hfind
        have h1 : (update_shape_text doc k nm t).2 =
            setSlide doc k (sl.set i
              { sl.getD i default with textFrame := some (updateShapeTF tf t) }) := by
          simp only [update_shape_text, hslide, hfind, htf]
        rw [h1]
        have hp2 : shapePred nm
            ({ sl.getD i default with textFrame := some (updateShapeTF tf t) }) = true := by
          simpa [shapePred] using hp
        have hg : getSlide (setSlide doc k (sl.set i
            { sl.getD i default with textFrame := some (updateShapeTF tf t) })) k =
            some (sl.set i
              { sl.getD i default with textFrame := some (updateShapeTF tf t) }) :=
          getSlideSetSlide doc k _ sl hslide
        have hf2 : findIdxP (shapePred nm) (sl.set i
            { sl.getD i default with textFrame := some (updateShapeTF tf t) }) = some i :=
          findIdxPSet _ _ _ _ hfind hp2
        have hget2 : (sl.set i
            { sl.getD i default with textFrame := some (updateShapeTF tf t) }).getD i default =
            { sl.getD i default with textFrame := some (updateShapeTF tf t) } :=
          listGetDSetSelf _ _ _ _ hi
        simp only [update_shape_text, hg, hf2, hget2, updateShapeTFIdem]
        rw [listSetSet, setSlideSetSlide]

/-- Shorthand for the new table produced by a successful in-bounds
update_table_cell: one cell of the grid is rewritten. -/
def tableAfterCell (tb : Table) (r c : Nat) (t : String) : Table :=
  { tb with cells := tb.cells.set r ((tb.cells.getD r []).set c (updateCellTF ((tb.cells.getD r []).getD c []) t)) }

/-- Shorthand for replacing the table carried by a shape. -/
def shapeWithTable (sh : Shape) (tb : Table) : Shape :=
  { sh with table := some tb }

/-- Rewriting a cell slot again with the content just written there is a
no-op at the row level. -/
theorem setCellIdem (row1 : List TextFrame) (c : Nat) (t : String) :
    (row1.set c (updateCellTF (row1.getD c []) t)).set c
      (updateCellTF ((row1.set c (updateCellTF (row1.getD c []) t)).getD c []) t) =
    row1.set c (updateCellTF (row1.getD c []) t) := by
  by_cases hcol : c < row1.length
  · rw [listGetDSetSelf _ _ _ _ hcol, updateCellTFIdem, listSetSet]
  · push_neg at hcol
    have e1 : row1.set c (updateCellTF (row1.getD c []) t) = row1 := listSetPast _ _ _ hcol
    rw [e1]
    exact e1

/-- The one-cell table rewrite is idempotent when the row index is within
the grid. -/
theorem tableAfterCellIdem (tb : Table) (r c : Nat) (t : String)
    (hrl : r < tb.cells.length) :
    tableAfterCell (tableAfterCell tb r c t) r c t = tableAfterCell tb r c t := by
  simp only [tableAfterCell]
  congr 1
  rw [listGetDSetSelf _ _ _ _ hrl]
  rw [listSetSet]
  congr 1
  exact setCellIdem (tb.cells.getD r []) c t

/-- The whole update_table_cell document transformation is idempotent for
fixed arguments. -/
theorem updateTableCellIdem (doc : Document) (k : ℤ) (nm : String) (row col : ℤ)
    (t : String) :
    (update_table_cell ((update_table_cell doc k nm row col t).2) k nm row col t).2 =
      (update_table_cell doc k nm row col t).2 := by
  cases hslide : getSlide doc k with
  | none => simp only [update_table_cell, hslide]
  | some sl =>
    cases hfind : findIdxP (tablePred nm) sl with
    | none => simp only [update_table_cell, hslide, hfind]
    | some i =>
      cases htb : (sl.getD i default).table with
      | none => simp only [update_table_cell, hslide, hfind, htb]
      | some tb =>
        have hi : i < sl.length := findIdxPLtLength _ _ _ hfind
        have hp : tablePred nm (sl.getD i default) = true := findIdxPGetD _ _ _ _ hfind
        by_cases hr : row - 1 < 0 ∨ (tb.cells.length : ℤ) ≤ row - 1
        · simp only [update_table_cell, hslide, hfind, htb, if_pos hr]
        · by_cases hc : col - 1 < 0 ∨ (tb.ncols : ℤ) ≤ col - 1
          · simp only [update_table_cell, hslide, hfind, htb, if_neg hr, if_pos hc]
          · have h1 : (update_table_cell doc k nm row col t).2 =
                setSlide doc k (sl.set i (shapeWithTable (sl.getD i default)
                  (tableAfterCell tb (row - 1).toNat (col - 1).toNat t))) := by
              simp only [update_table_cell, hslide, hfind, htb, if_neg hr, if_neg hc,
                tableAfterCell, shapeWithTable]
            rw [h1]
            have hp2 : tablePred nm (shapeWithTable (sl.getD i default)
                (tableAfterCell tb (row - 1).toNat (col - 1).toNat t)) = true := by
              have h := hp
              simp only [tablePred, shapeWithTable, Bool.and_eq_true, beq_iff_eq,
                Option.isSome_some] at h ⊢
              exact And.intro h.1 trivial
            have hg : getSlide (setSlide doc k (sl.set i (shapeWithTable (sl.getD i default)
                (tableAfterCell tb (row - 1).toNat (col - 1).toNat t)))) k =
                some (sl.set i (shapeWithTable (sl.getD i default)
                  (tableAfterCell tb (row - 1).toNat (col - 1).toNat t))) :=
              getSlideSetSlide doc k _ sl hslide
            have hf2 : findIdxP (tablePred nm) (sl.set i (shapeWithTable (sl.getD i default)
                (tableAfterCell tb (row - 1).toNat (col - 1).toNat t))) = some i :=
              findIdxPSet _ _ _ _ hfind hp2
            have hget2 : (sl.set i (shapeWithTable (sl.getD i default)
                (tableAfterCell tb (row - 1).toNat (col - 1).toNat t))).getD i default =
                shapeWithTable (sl.getD i default)
                  (tableAfterCell tb (row - 1).toNat (col - 1).toNat t) :=
              listGetDSetSelf _ _ _ _ hi
            have htb2 : (shapeWithTable (sl.getD i default)
                (tableAfterCell tb (row - 1).toNat (col - 1).toNat t)).table =
                some (tableAfterCell tb (row - 1).toNat (col - 1).toNat t) := rfl
            have hlen : ((tableAfterCell tb (row - 1).toNat (col - 1).toNat t).cells.length : ℤ) =
                (tb.cells.length : ℤ) := by
              simp [tableAfterCell]
            have hr2 : ¬(row - 1 < 0 ∨
                (((tableAfterCell tb (row - 1).toNat (col - 1).toNat t).cells.length : ℤ)) ≤ row - 1) := by
              rw [hlen]; exact hr
            have hc2 : ¬(col - 1 < 0 ∨
                (((tableAfterCell tb (row - 1).toNat (col - 1).toNat t).ncols : ℤ)) ≤ col - 1) := by
              show ¬(col - 1 < 0 ∨ ((tb.ncols : ℤ)) ≤ col - 1)
              exact hc
            have hrowlt : (row - 1).toNat < tb.cells.length := by
              push_neg at hr; omega
            have hcellsEq : tableAfterCell (tableAfterCell tb (row - 1).toNat (col - 1).toNat t)
                (row - 1).toNat (col - 1).toNat t =
                tableAfterCell tb (row - 1).toNat (col - 1).toNat t :=
              tableAfterCellIdem tb (row - 1).toNat (col - 1).toNat t hrowlt
            have hshapeEq : shapeWithTable (shapeWithTable (sl.getD i default)
                (tableAfterCell tb (row - 1).toNat (col - 1).toNat t))
                (tableAfterCell (tableAfterCell tb (row - 1).toNat (col - 1).toNat t)
                  (row - 1).toNat (col - 1).toNat t) =
                shapeWithTable (sl.getD i default)
                  (tableAfterCell tb (row - 1).toNat (col - 1).toNat t) := by
              rw [hcellsEq]
              simp [shapeWithTable]
            simp only [update_table_cell, hg, hf2, hget2, htb2, if_neg hr2, if_neg hc2]
            show setSlide _ k (List.set _ i (shapeWithTable _ (tableAfterCell _ _ _ _))) = _
            rw [hshapeEq, listSetSet, setSlideSetSlide]

/-- A raw value that parse_number accepts is not caught by the
empty-value short circuit of format_value. -/
theorem parseSomeNotEmpty (raw : Value) (v : PyNum)
    (h : parse_number raw = some v) : isEmptyRaw raw = false := by
  cases raw with
  | none => simp [parse_number] at h
  | num q => rfl
  | str s =>
    by_cases hs : pyStrip s = ""
    · rw [parse_number, hs] at h
      have : pyFloat (String.mk (parenNeg (cleanChars ("" : String).toList))) = Option.none := by
        decide
      rw [this] at h
      exact Option.noConfusion h
    · simp [isEmptyRaw, hs]

/-- Unfolding of format_value past the empty-value short circuit. -/
theorem formatValueNonempty (raw : Value) (h : isEmptyRaw raw = false)
    (fmt p s e : String) :
    format_value raw fmt p s e =
      p ++ formatDispatch raw (if fmt = "" then "text" else pyStrip (pyLower fmt)) ++ s := by
  simp [format_value, h]

/-- The multiply flag computed by the percent branches agrees with the
predicate 0 < abs(v) and abs(v) <= 1 (stated in that order). -/
theorem percentMultiplyEq (v : PyNum) :
    percentMultiply v =
      decide (PyNum.lt (PyNum.ofInt 0) v.abs ∧ PyNum.le v.abs (PyNum.ofInt 1)) := by
  by_cases h1 : PyNum.le v.abs (PyNum.ofInt 1) <;>
    by_cases h2 : PyNum.lt (PyNum.ofInt 0) v.abs <;>
      simp [percentMultiply, h1, h2]

/-- The decimal-count branches of format_percent collapse to a single
fixed-point rendering at the requested count. -/
theorem formatPercentEq (v : PyNum) (d : Nat) (m : Bool) :
    format_percent v d m = fmtFixed (if m then v.scale 100 else v) d false ++ "%" := by
  match d with
  | 0 => rfl
  | 1 => rfl
  | n + 2 => simp [format_percent]

/-- Dispatch reduction for the percent0 format code. -/
theorem dispatchPercent0 (raw : Value) (v : PyNum) (h : parse_number raw = some v) :
    formatDispatch raw "percent0" = format_percent v 0 (percentMultiply v) := by
  unfold formatDispatch
  rw [h]
  rfl

/-- Dispatch reduction for the percent1 format code. -/
theorem dispatchPercent1 (raw : Value) (v : PyNum) (h : parse_number raw = some v) :
    formatDispatch raw "percent1" = format_percent v 1 (percentMultiply v) := by
  unfold formatDispatch
  rw [h]
  rfl

/-- Dispatch reduction for the percent2 format code. -/
theorem dispatchPercent2 (raw : Value) (v : PyNum) (h : parse_number raw = some v) :
    formatDispatch raw "percent2" = format_percent v 2 (percentMultiply v) := by
  unfold formatDispatch
  rw [h]
  rfl

/-- Dispatch reduction for the date_mdy format code. -/
theorem dispatchDateMdy (raw : Value) :
    formatDispatch raw "date_mdy" = format_date_mdy raw := rfl

/-- C1: for every numeric input accepted by parse_number and every
percent0/1/2 code, format_value multiplies by 100 exactly when
0 < abs(v) <= 1, renders with the requested decimal count and appends a
trailing percent sign; in particular 0.325 under percent1 gives 32.5%
and 42.0 under percent1 gives 42.0% (no multiplication). -/
theorem C1_percent_multiply_rule :
    (∀ (raw : Value) (v : PyNum) (d : Nat), parse_number raw = some v → d ≤ 2 →
      ∀ (p s e : String),
        format_value raw ("percent" ++ toString d) p s e =
          p ++ (fmtFixed (if PyNum.lt (PyNum.ofInt 0) v.abs ∧ PyNum.le v.abs (PyNum.ofInt 1)
                  then v.scale 100 else v) d false ++ "%") ++ s) ∧
    format_value (.num ⟨325, 1000⟩) "percent1" "" "" "" = "32.5%" ∧
    format_value (.num ⟨42, 1⟩) "percent1" "" "" "" = "42.0%" := by
  refine ⟨?_, by decide, by decide⟩
  intro raw v d hparse hd p s e
  have hemp := parseSomeNotEmpty raw v hparse
  interval_cases d
  · rw [show ("percent" ++ toString (0 : Nat)) = "percent0" from rfl]
    rw [formatValueNonempty raw hemp "percent0" p s e]
    rw [show (if ("percent0" : String) = "" then "text" else pyStrip (pyLower "percent0")) = "percent0" from by decide]
    rw [dispatchPercent0 raw v hparse, formatPercentEq, percentMultiplyEq]
    simp only [decide_eq_true_eq]
  · rw [show ("percent" ++ toString (1 : Nat)) = "percent1" from rfl]
    rw [formatValueNonempty raw hemp "percent1" p s e]
    rw [show (if ("percent1" : String) = "" then "text" else pyStrip (pyLower "percent1")) = "percent1" from by decide]
    rw [dispatchPercent1 raw v hparse, formatPercentEq, percentMultiplyEq]
    simp only [decide_eq_true_eq]
  · rw [show ("percent" ++ toString (2 : Nat)) = "percent2" from rfl]
    rw [formatValueNonempty raw hemp "percent2" p s e]
    rw [show (if ("percent2" : String) = "" then "text" else pyStrip (pyLower "percent2")) = "percent2" from by decide]
    rw [dispatchPercent2 raw v hparse, formatPercentEq, percentMultiplyEq]
    simp only [decide_eq_true_eq]

/-- Witness for C1 at the concrete input "0.325" under percent1. -/
theorem C1_percent_multiply_rule_witness :
    parse_number (.str "0.325") = some ⟨325, 1000⟩ ∧
    format_value (.str "0.325") "percent1" "" "" "" =
      "" ++ (fmtFixed (if PyNum.lt (PyNum.ofInt 0) (PyNum.abs ⟨325, 1000⟩) ∧
          PyNum.le (PyNum.abs ⟨325, 1000⟩) (PyNum.ofInt 1)
        then PyNum.scale ⟨325, 1000⟩ 100 else ⟨325, 1000⟩) 1 false ++ "%") ++ "" :=
  ⟨by decide,
   C1_percent_multiply_rule.1 (.str "0.325") ⟨325, 1000⟩ 1 (by decide) (by decide) "" "" ""⟩

/-- C2: format_value returns empty_value verbatim, without prefix or
suffix, whenever the raw value is None or a string that is empty or
whitespace-only, for every format code. -/
theorem C2_empty_value_verbatim (code p s e : String) :
    format_value Value.none code p s e = e ∧
    ∀ w : String, pyStrip w = "" → format_value (.str w) code p s e = e := by
  constructor
  · rfl
  · intro w hw
    have hemp : isEmptyRaw (.str w) = true := by simp [isEmptyRaw, hw]
    simp [format_value, hemp]

/-- Witness for C2 at a whitespace-only string and concrete prefix,
suffix and empty marker. -/
theorem C2_empty_value_verbatim_witness :
    format_value Value.none "currency0" "P" "S" "EMPTY" = "EMPTY" ∧
    pyStrip " \t " = "" ∧
    format_value (.str " \t ") "currency0" "P" "S" "EMPTY" = "EMPTY" :=
  ⟨(C2_empty_value_verbatim "currency0" "P" "S" "EMPTY").1,
   by decide,
   (C2_empty_value_verbatim "currency0" "P" "S" "EMPTY").2 " \t " (by decide)⟩

/-- Concrete two-paragraph shape document used to settle C3. -/
def c3Doc : Document :=
  [[⟨"S", some [[⟨"a", emptyFont⟩], [⟨"b", emptyFont⟩]], Option.none⟩]]

/-- Slide of c3Doc. -/
def c3Slide : Slide :=
  [⟨"S", some [[⟨"a", emptyFont⟩], [⟨"b", emptyFont⟩]], Option.none⟩]

/-- C3 counterexample: on a two-paragraph text frame, update_shape_text
replaces only the first paragraph; the second paragraph survives, so the
container does not consist of exactly one paragraph afterwards. -/
theorem C3_counterexample :
    (update_shape_text c3Doc 1 "S" "new").2 =
      [[⟨"S", some [[⟨"new", emptyFont⟩], [⟨"b", emptyFont⟩]], Option.none⟩]] ∧
    ([[⟨"new", emptyFont⟩], [⟨"b", emptyFont⟩]] : TextFrame).length ≠ 1 := by
  exact ⟨by decide, by decide⟩

/-- C3 amended: when the found shape's text frame starts with a paragraph
that has a run, update_shape_text rewrites that first paragraph to a
single styled run holding newText and leaves every later paragraph
unchanged; other paragraphs are not discarded. -/
theorem C3_first_paragraph_replaced (doc : Document) (k : ℤ) (nm t : String)
    (sl : Slide) (i : Nat) (r : Run) (rs : Paragraph) (ps : TextFrame)
    (hs : getSlide doc k = some sl) (hf : findIdxP (shapePred nm) sl = some i)
    (htf : (sl.getD i default).textFrame = some ((r :: rs) :: ps)) :
    (update_shape_text doc k nm t).2 =
      setSlide doc k (sl.set i { sl.getD i default with textFrame := some (replaceParagraphShape r t :: ps) }) ∧
    replaceParagraphShape r t =
      [⟨t, ⟨filtName r.font.name, filtSize r.font.size, r.font.bold, r.font.italic, filtColor r.font.colorRgb⟩⟩] := by
  constructor
  · simp only [update_shape_text, hs, hf, htf, updateShapeTF]
  · rfl

/-- Witness for C3 on the concrete two-paragraph document. -/
theorem C3_first_paragraph_replaced_witness :
    (update_shape_text c3Doc 1 "S" "new").2 =
      setSlide c3Doc 1 (c3Slide.set 0 { c3Slide.getD 0 default with textFrame := some (replaceParagraphShape ⟨"a", emptyFont⟩ "new" :: [[⟨"b", emptyFont⟩]]) }) ∧
    replaceParagraphShape (⟨"a", emptyFont⟩ : Run) "new" =
      [⟨"new", ⟨filtName Option.none, filtSize Option.none, Option.none, Option.none, filtColor Option.none⟩⟩] :=
  C3_first_paragraph_replaced c3Doc 1 "S" "new" c3Slide 0 ⟨"a", emptyFont⟩ [] [[⟨"b", emptyFont⟩]]
    (by decide) (by decide) (by decide)

/-- Fully styled run used to settle C4. -/
def c4RunBefore : Run := ⟨"x", ⟨some "Arial", some 18, some true, some true, some 255⟩⟩

/-- Replacement run produced by the table-cell path: italic is dropped. -/
def c4RunAfter : Run := ⟨"X", ⟨some "Arial", some 18, some true, Option.none, some 255⟩⟩

/-- One-slide document holding a 1x1 table whose cell carries c4RunBefore. -/
def c4DocBefore : Document := [[⟨"T", Option.none, some ⟨[[[[c4RunBefore]]]], 1⟩⟩]]

/-- The same document after updating the cell text to "X". -/
def c4DocAfter : Document := [[⟨"T", Option.none, some ⟨[[[[c4RunAfter]]]], 1⟩⟩]]

/-- C4 counterexample: the cell's first run carried italic = true before
the update, yet after update_table_cell the replacement run's italic is
None — update_table_cell does not apply the same snapshot as
update_shape_text, which would have kept italic. -/
theorem C4_counterexample :
    c4RunBefore.font.italic = some true ∧
    (update_table_cell c4DocBefore 1 "T" 1 1 "X").2 = c4DocAfter ∧
    c4RunAfter.font.italic = Option.none := by
  exact ⟨rfl, by decide, rfl⟩

/-- C4 amended: the table-cell replacement re-applies font name, size,
bold and RGB color from the cell's first run but never italic — the
replacement run's italic is always unset — whereas the shape path of
update_shape_text carries italic over. -/
theorem C4_cell_style_drops_italic (r : Run) (rest : Paragraph) (ps : TextFrame) (t : String) :
    updateCellTF ((r :: rest) :: ps) t =
      [⟨t, ⟨filtName r.font.name, filtSize r.font.size, r.font.bold, Option.none, filtColor r.font.colorRgb⟩⟩] :: ps ∧
    updateShapeTF ((r :: rest) :: ps) t =
      [⟨t, ⟨filtName r.font.name, filtSize r.font.size, r.font.bold, r.font.italic, filtColor r.font.colorRgb⟩⟩] :: ps :=
  ⟨rfl, rfl⟩

/-- Mapping row with an unrecognized target type, used to settle C5. -/
def c5BadType : MappingRow :=
  ⟨"m1", "B2", 1, "bogus", "Obj", Option.none, Option.none, "text", "", "", ""⟩

/-- Table-cell mapping row missing its row and col indices, used to
settle C5. -/
def c5MissingRowCol : MappingRow :=
  ⟨"m2", "B3", 1, "table_cell", "T", Option.none, Option.none, "text", "", "", ""⟩

/-- C5 counterexample: in dry-run mode process_mapping reports success
for rows that are not well-formed — both for an unrecognized target type
and for a table_cell row missing row/col — because the dry-run branch
returns before any target-type validation. -/
theorem C5_counterexample :
    (c5BadType.target_type ≠ "shape" ∧ c5BadType.target_type ≠ "table_cell") ∧
    process_mapping [] c5BadType (.str "v") "" true = ((true, "Dry run - no changes made"), []) ∧
    c5MissingRowCol.row = Option.none ∧
    process_mapping [] c5MissingRowCol (.str "v") "" true = ((true, "Dry run - no changes made"), []) := by
  exact ⟨⟨by decide, by decide⟩, by decide, rfl, by decide⟩

/-- C5 amended: in dry-run mode process_mapping performs no mutator or
persistence call and leaves the document untouched, but it reports
success for every row — well-formed or not — since the dry-run branch
returns before target-type validation. -/
theorem C5_dry_run_unconditional_success (doc : Document) (m : MappingRow) (v : Value)
    (e : String) :
    process_mapping doc m v e true = ((true, "Dry run - no changes made"), doc) := rfl

/-- C6: an out-of-range 1-based row or col on a resolved table yields the
recoverable (false, range-message) result and leaves the whole document
— the table and every other cell included — unchanged; no fault is
raised and the table is never grown. -/
theorem C6_out_of_range_recoverable (doc : Document) (k : ℤ) (nm : String)
    (row col : ℤ) (t : String) (sl : Slide) (i : Nat) (tb : Table)
    (hs : getSlide doc k = some sl) (hf : findIdxP (tablePred nm) sl = some i)
    (htb : (sl.getD i default).table = some tb)
    (hout : row < 1 ∨ (tb.cells.length : ℤ) < row ∨ col < 1 ∨ (tb.ncols : ℤ) < col) :
    update_table_cell doc k nm row col t =
      ((false, if row < 1 ∨ (tb.cells.length : ℤ) < row
          then "Row " ++ toString row ++ " out of range"
          else "Column " ++ toString col ++ " out of range"), doc) := by
  simp only [update_table_cell, hs, hf, htb]
  by_cases hr : row - 1 < 0 ∨ (tb.cells.length : ℤ) ≤ row - 1
  · have hr1 : row < 1 ∨ (tb.cells.length : ℤ) < row := by omega
    rw [if_pos hr, if_pos hr1]
  · have hr1 : ¬(row < 1 ∨ (tb.cells.length : ℤ) < row) := by omega
    have hc : col - 1 < 0 ∨ (tb.ncols : ℤ) ≤ col - 1 := by omega
    rw [if_neg hr, if_pos hc, if_neg hr1]

/-- One-slide document with a named 1x1 table, used as the C6 witness. -/
def c6Doc : Document := [[⟨"T", Option.none, some ⟨[[[]]], 1⟩⟩]]

/-- Slide of c6Doc. -/
def c6Slide : Slide := [⟨"T", Option.none, some ⟨[[[]]], 1⟩⟩]

/-- Witness for C6: row 99 on the 1x1 table fails recoverably with the
range message and returns the document unchanged. -/
theorem C6_out_of_range_recoverable_witness :
    update_table_cell c6Doc 1 "T" 99 1 "X" = ((false, "Row 99 out of range"), c6Doc) := by
  have h := C6_out_of_range_recoverable c6Doc 1 "T" 99 1 "X" c6Slide 0
    ⟨[[[]]], 1⟩ (by decide) (by decide) (by decide) (by decide)
  rw [if_pos (by decide)] at h
  exact h

/-- C7: currency formatting puts the minus sign before the dollar symbol
for every negative input (never dollar-minus), parse_number turns a
leading/trailing parenthesis pair into a leading minus sign, and
format("(500)", currency0) is -dollar-500. -/
theorem C7_negative_currency_and_paren :
    (∀ (v : PyNum) (d : Nat), PyNum.lt v (PyNum.ofInt 0) →
        format_currency v d = "-$" ++ fmtFixed v.abs (min d 2) true) ∧
    (∀ t : List Char, parenNeg ('(' :: t ++ [')']) = '-' :: t) ∧
    format_value (.str "(500)") "currency0" "" "" "" = "-$500" := by
  refine ⟨?_, ?_, by decide⟩
  · intro v d hv
    have hneg : v.isNeg = true := by
      simp only [PyNum.lt, PyNum.ofInt] at hv
      simp only [PyNum.isNeg, decide_eq_true_eq]
      omega
    match d with
    | 0 =>
      simp only [format_currency, hneg]
      rfl
    | 1 =>
      simp only [format_currency, hneg]
      rfl
    | n + 2 =>
      have hmin : min (n + 2) 2 = 2 := by omega
      simp only [format_currency, hneg, hmin]
      rw [if_neg (by omega : ¬(n + 2 = 0)), if_neg (by omega : ¬(n + 2 = 1))]
      rfl
  · intro t
    have h2 : ('(' :: t ++ [')']).getLast? = some ')' := by
      rw [show '(' :: t ++ [')'] = ('(' :: t) ++ [')'] from rfl]
      rw [List.getLast?_concat]
    have hcond : (decide (('(' :: t ++ [')']).head? = some '(') &&
        decide (('(' :: t ++ [')']).getLast? = some ')')) = true := by
      rw [h2]
      rfl
    unfold parenNeg
    rw [if_pos hcond]
    show '-' :: (t ++ [')']).dropLast = '-' :: t
    rw [List.dropLast_concat]

/-- Witness for C7: -1234 at zero decimals gets the sign before the
symbol yielding -$1,234, and the parenthesised digit list converts to a
leading minus. -/
theorem C7_negative_currency_and_paren_witness :
    format_currency ⟨-1234, 1⟩ 0 = "-$" ++ fmtFixed (PyNum.abs ⟨-1234, 1⟩) (min 0 2) true ∧
    fmtFixed (PyNum.abs ⟨-1234, 1⟩) (min 0 2) true = "1,234" ∧
    parenNeg ('(' :: ['5', '0', '0'] ++ [')']) = '-' :: ['5', '0', '0'] :=
  ⟨C7_negative_currency_and_paren.1 ⟨-1234, 1⟩ 0 (by decide),
   by decide,
   C7_negative_currency_and_paren.2.1 ['5', '0', '0']⟩

/-- C8: a numeric raw value under date_mdy is truncated to a whole-day
count added to the 1899-12-30 epoch (serial 25569 lands on 1970-01-01,
serial 0 on 1899-12-30) and rendered "Month D, Year" with an unpadded
day, whenever the day lands inside datetime's supported years; in
particular serial 44287 renders as April 1, 2021. -/
theorem C8_serial_date_mdy :
    (∀ (q : PyNum) (p s e : String), pyDateInRange (pyTrunc q) →
        format_value (.num q) "date_mdy" p s e =
          p ++ renderMdy (civilFromDays (pyTrunc q - sheetsEpochToUnix)) ++ s) ∧
    civilFromDays (0 - sheetsEpochToUnix) = (1899, 12, 30) ∧
    format_value (.num ⟨44287, 1⟩) "date_mdy" "" "" "" = "April 1, 2021" := by
  refine ⟨?_, by decide, by decide⟩
  intro q p s e hin
  rw [formatValueNonempty (.num q) rfl "date_mdy" p s e]
  rw [show (if ("date_mdy" : String) = "" then "text" else pyStrip (pyLower "date_mdy")) = "date_mdy" from by decide]
  rw [dispatchDateMdy]
  show p ++ (if pyDateInRange (pyTrunc q) then renderMdy (civilFromDays (pyTrunc q - sheetsEpochToUnix)) else pyStr (.num q)) ++ s = _
  rw [if_pos hin]

/-- Witness for C8 at serial 44287. -/
theorem C8_serial_date_mdy_witness :
    pyDateInRange (pyTrunc ⟨44287, 1⟩) ∧
    format_value (.num ⟨44287, 1⟩) "date_mdy" "" "" "" =
      "" ++ renderMdy (civilFromDays (pyTrunc ⟨44287, 1⟩ - sheetsEpochToUnix)) ++ "" :=
  ⟨by decide, C8_serial_date_mdy.1 ⟨44287, 1⟩ "" "" "" (by decide)⟩

/-- C9: for fixed target and text, applying update_shape_text twice (or
update_table_cell twice) produces exactly the document state of a single
application — per-target mutation is idempotent, resolvable or not. -/
theorem C9_mutation_idempotent (doc : Document) (k : ℤ) (nm : String) (row col : ℤ)
    (t : String) :
    (update_shape_text ((update_shape_text doc k nm t).2) k nm t).2 =
      (update_shape_text doc k nm t).2 ∧
    (update_table_cell ((update_table_cell doc k nm row col t).2) k nm row col t).2 =
      (update_table_cell doc k nm row col t).2 :=
  ⟨updateShapeTextIdem doc k nm t, updateTableCellIdem doc k nm row col t⟩

/-- C10: MappingRow.from_row does not reject nonpositive slide indices at
parse time — a cell parsing to 0 is coerced to 1 by the Python or-1
truthiness fallback, while a negative parse passes through unchanged. -/
theorem C10_slide_index_parse :
    (∀ r : List SheetCell, get_int r 2 (some 1) = some 0 →
        (MappingRow.from_row r).slide_index = 1) ∧
    (∀ (r : List SheetCell) (z : ℤ), z < 0 → get_int r 2 (some 1) = some z →
        (MappingRow.from_row r).slide_index = z) := by
  constructor
  · intro r h
    simp [MappingRow.from_row, h]
  · intro r z hz h
    have hne : z ≠ 0 := by omega
    simp [MappingRow.from_row, h, hne]

/-- Witness for C10 on concrete rows whose slideIndex cells hold "0" and
"-3". -/
theorem C10_slide_index_parse_witness :
    get_int [SheetCell.str "id", SheetCell.str "B2", SheetCell.str "0"] 2 (some 1) = some 0 ∧
    (MappingRow.from_row [SheetCell.str "id", SheetCell.str "B2", SheetCell.str "0"]).slide_index = 1 ∧
    get_int [SheetCell.str "id", SheetCell.str "B2", SheetCell.str "-3"] 2 (some 1) = some (-3) ∧
    (MappingRow.from_row [SheetCell.str "id", SheetCell.str "B2", SheetCell.str "-3"]).slide_index = -3 :=
  ⟨by decide,
   C10_slide_index_parse.1 [SheetCell.str "id", SheetCell.str "B2", SheetCell.str "0"] (by decide),
   by decide,
   C10_slide_index_parse.2 [SheetCell.str "id", SheetCell.str "B2", SheetCell.str "-3"] (-3)
     (by decide) (by decide)⟩
